import Mathlib

/-!
# Verification of the UHD MPM Ethernet dispatcher table and daughterboard base

Shallow embedding of two Python modules:
* `mpm/python/usrp_mpm/ethtable.py` (`EthDispatcherTable`)
* `mpm/python/usrp_mpm/dboard_manager/base.py` (`DboardManagerBase`)

Conventions of the embedding:
* 32-bit register writes (`poke32`) are recorded as a trace, a list of
  `(byte-offset, value)` pairs, in the order the Python code performs them.
* Log calls are recorded as a list of `LogLevel`s in call order (the message
  text is irrelevant to the properties considered here).
* A Python exception is an `Except PyExc` result; side effects performed
  before the raise (logs) are still reported alongside the error.
* Characters handled by `ord`/`chr` are represented by their Unicode
  codepoints as `Nat`, avoiding the partiality of `Char` construction.
-/

deriving instance DecidableEq for Except

namespace UhdMpm

/-- Python exception kinds that the embedded code can raise.  The Python
class hierarchy matters for one claim: `KeyError` and `IndexError` are the
subclasses of `LookupError`; `RuntimeError`, `ValueError`, `TypeError`,
`AssertionError`, `NotImplementedError` and netaddr's `AddrFormatError`
are not `LookupError`s. -/
inductive PyExc where
  | valueError
  | typeError
  | keyError
  | indexError
  | runtimeError
  | assertionError
  | notImplementedError
  | addrFormatError
  deriving DecidableEq, Repr

/-- Whether the exception is an instance of Python's `LookupError`
(base class of `KeyError` and `IndexError`, and of nothing else here). -/
def PyExc.isLookupError : PyExc → Bool
  | .keyError => true
  | .indexError => true
  | _ => false

/-- Log levels of the `mpmlog` logger used by both modules. -/
inductive LogLevel where
  | error
  | warning
  | debug
  | trace
  deriving DecidableEq, Repr

/-- A register write: `(byte offset, 32-bit value)`. -/
abbrev Poke := Nat × Nat

/-! ## External address conversions (netaddr)

`netaddr.IPAddress` and `netaddr.EUI` are third-party conversions used by
`ethtable.py`.  They are embedded here for the input shapes the module
feeds them: dotted-quad IPv4 strings, and colon- or dash-separated
EUI-48 MAC strings (or `None`, which netaddr's `EUI` rejects). -/

/-- Split a character list on a separator predicate (the separator is
dropped; `n+1` separators yield `n+2` groups, possibly empty). -/
def splitGroups (sep : Char → Bool) : List Char → List (List Char)
  | [] => [[]]
  | c :: rest =>
    let groups := splitGroups sep rest
    if sep c then [] :: groups
    else match groups with
      | [] => [[c]]
      | g :: gs => (c :: g) :: gs

/-- Decimal value of a digit list (`none` if empty or a non-digit occurs). -/
def decValue? (l : List Char) : Option Nat :=
  if l.isEmpty then none
  else if l.all Char.isDigit then
    some (l.foldl (fun acc c => 10 * acc + (c.toNat - 48)) 0)
  else none

/-- Hexadecimal digit value, case-insensitive. -/
def hexDigit? (c : Char) : Option Nat :=
  if c.isDigit then some (c.toNat - 48)
  else if 'a' ≤ c ∧ c ≤ 'f' then some (c.toNat - 87)
  else if 'A' ≤ c ∧ c ≤ 'F' then some (c.toNat - 55)
  else none

/-- Hexadecimal value of a digit list (`none` if empty or a non-hex-digit
occurs). -/
def hexValue? (l : List Char) : Option Nat :=
  if l.isEmpty then none
  else l.foldl (fun acc c => do
    let a ← acc
    let d ← hexDigit? c
    pure (16 * a + d)) (some 0)

/-- An IPv4 dotted-quad octet: one to three decimal digits, value ≤ 255. -/
def octet? (l : List Char) : Option Nat := do
  let v ← decValue? l
  if l.length ≤ 3 ∧ v ≤ 255 then pure v else none

/-- Parse a dotted-quad IPv4 string into its packed 32-bit integer,
as `int(netaddr.IPAddress(s))` does; `none` models netaddr's
`AddrFormatError` on a malformed address. -/
def parseIPv4 (s : String) : Option Nat :=
  match (splitGroups (· = '.') s.data).mapM octet? with
  | some [a, b, c, d] => some (a * 16777216 + b * 65536 + c * 256 + d)
  | _ => none

/-- `int(netaddr.IPAddress(ip_addr))`: packed integer of a well-formed
dotted-quad, `AddrFormatError` otherwise. -/
def ipAddressToInt (s : String) : Except PyExc Nat :=
  match parseIPv4 s with
  | some n => .ok n
  | none => .error .addrFormatError

/-- A MAC-address group: one or two hex digits. -/
def macGroup? (l : List Char) : Option Nat := do
  let v ← hexValue? l
  if l.length ≤ 2 then pure v else none

/-- Parse an EUI-48 MAC string (six colon- or dash-separated hex-digit
pairs, case-insensitive) into its 48-bit integer. -/
def parseMac (s : String) : Option Nat :=
  match (splitGroups (fun c => c = ':' ∨ c = '-') s.data).mapM macGroup? with
  | some [a, b, c, d, e, f] =>
    some ((((((a * 256 + b) * 256 + c) * 256 + d) * 256 + e) * 256 + f))
  | _ => none

/-- `int(netaddr.EUI(mac_addr))` applied to the possibly-`None` MAC string
held by `set_route`: netaddr's `EUI` raises a `TypeError` when handed a
non-string (`None`) input and an `AddrFormatError` on a malformed string;
otherwise it yields the 48-bit integer. -/
def euiToInt : Option String → Except PyExc Nat
  | none => .error .typeError
  | some s =>
    match parseMac s with
    | some n => .ok n
    | none => .error .addrFormatError

/-! ## `EthDispatcherTable` (ethtable.py)

The register handle (`UIO`) is external; each method below returns the
log-level trace it emits and, unless it raises, the ordered `poke32`
trace it performs. -/

/-- `EthDispatcherTable.DEFAULT_VITA_PORT`. -/
def DEFAULT_VITA_PORT : List Nat := [49153, 49154]

/-- `EthDispatcherTable.OWN_IP_OFFSET`. -/
def OWN_IP_OFFSET : Nat := 0x0000

/-- `EthDispatcherTable.OWN_PORT_OFFSET`. -/
def OWN_PORT_OFFSET : List Nat := [0x0004, 0x0008]

/-- `EthDispatcherTable.SID_IP_OFFSET`. -/
def SID_IP_OFFSET : Nat := 0x1000

/-- `EthDispatcherTable.SID_PORT_MAC_HI_OFFSET`. -/
def SID_PORT_MAC_HI_OFFSET : Nat := 0x1400

/-- `EthDispatcherTable.SID_MAC_LO_OFFSET`. -/
def SID_MAC_LO_OFFSET : Nat := 0x1800

/-- `EthDispatcherTable.set_ipv4_addr(ip_addr)`: log a debug message, parse
the address (raising `AddrFormatError` on malformed input, before any
write), then `poke32(OWN_IP_OFFSET, ip_addr_int)`. -/
def set_ipv4_addr (ip_addr : String) : List LogLevel × Except PyExc (List Poke) :=
  ([.debug],
    match ipAddressToInt ip_addr with
    | .error e => .error e
    | .ok n => .ok [(OWN_IP_OFFSET, n)])

/-- `EthDispatcherTable.set_vita_port(port_value=None, port_idx=None)`:
`port_idx = port_idx or 0`; `port_value = port_value or
DEFAULT_VITA_PORT[port_idx]` (so an explicit falsy `0` also takes the
default); `assert port_idx in (0, 1)`; `poke32(OWN_PORT_OFFSET[port_idx],
port_value)`.  The tuple indexing precedes the assert, as in the source. -/
def set_vita_port (port_value port_idx : Option Nat) : Except PyExc (List Poke) :=
  let idx := match port_idx with
    | none => 0
    | some i => if i = 0 then 0 else i
  match DEFAULT_VITA_PORT[idx]? with
  | none => .error .indexError
  | some dflt =>
    let pv := match port_value with
      | none => dflt
      | some p => if p = 0 then dflt else p
    if idx = 0 ∨ idx = 1 then
      match OWN_PORT_OFFSET[idx]? with
      | none => .error .indexError
      | some addr => .ok [(addr, pv)]
    else .error .assertionError

/-- `EthDispatcherTable.set_route(sid, ip_addr, udp_port, mac_addr=None)`.
`get_mac_addr` is the external ARP lookup (`usrp_mpm.net.get_mac_addr`),
returning `none` when no MAC can be resolved; `dst_ep` is `sid.dst_ep`.
If `mac_addr` is unset it is resolved; if still unresolved an error is
logged and execution continues.  A debug line is logged, the IP is parsed
(`AddrFormatError` on malformed input), the MAC converted
(`int(netaddr.EUI(...))`), then the three writes are performed, each
preceded by a trace log: Dest-IP, MAC-Lo, Port+MAC-Hi. -/
def set_route (get_mac_addr : String → Option String) (dst_ep : Nat)
    (ip_addr : String) (udp_port : Nat) (mac_addr : Option String) :
    List LogLevel × Except PyExc (List Poke) :=
  let mac := match mac_addr with
    | none => get_mac_addr ip_addr
    | some m => some m
  let logs := (match mac with
    | none => [LogLevel.error]
    | some _ => []) ++ [LogLevel.debug]
  match ipAddressToInt ip_addr with
  | .error e => (logs, .error e)
  | .ok ip_addr_int =>
    match euiToInt mac with
    | .error e => (logs, .error e)
    | .ok mac_addr_int =>
      let sid_offset := 4 * dst_ep
      (logs ++ [.trace, .trace, .trace],
        .ok [(SID_IP_OFFSET + sid_offset, ip_addr_int),
             (SID_MAC_LO_OFFSET + sid_offset, mac_addr_int &&& 0xFFFFFFFF),
             (SID_PORT_MAC_HI_OFFSET + sid_offset,
               (udp_port <<< 16) ||| (mac_addr_int >>> 32))])

/-! ## `DboardManagerBase` (dboard_manager/base.py) -/

/-- The `device_info` dictionary built in `DboardManagerBase.__init__`:
exactly the four keys `pid`, `serial`, `rev`, `eeprom_version`, each taken
from the EEPROM metadata or defaulting to `"n/a"`. -/
structure DeviceInfo where
  pid : String := "n/a"
  serial : String := "n/a"
  rev : String := "n/a"
  eeprom_version : String := "n/a"
  deriving DecidableEq, Repr

/-- Construction of `device_info` from the `eeprom_md` keyword argument
(an association list standing for the metadata dict). -/
def mk_device_info (eeprom_md : List (String × String)) : DeviceInfo :=
  { pid := (eeprom_md.lookup "pid").getD "n/a"
    serial := (eeprom_md.lookup "serial").getD "n/a"
    rev := (eeprom_md.lookup "rev").getD "n/a"
    eeprom_version := (eeprom_md.lookup "eeprom_version").getD "n/a" }

/-- Python `int(s)` on a string: strip surrounding whitespace, accept an
optional sign followed by a nonempty run of decimal digits, raise
`ValueError` otherwise.  (The underscore digit grouping accepted since
Python 3.6 is not modelled; no claim depends on it.) -/
def pyStrToInt (s : String) : Except PyExc Int :=
  let l := ((s.data.dropWhile Char.isWhitespace).reverse.dropWhile
    Char.isWhitespace).reverse
  match l with
  | '-' :: rest =>
    match decValue? rest with
    | some v => .ok (-(v : Int))
    | none => .error .valueError
  | '+' :: rest =>
    match decValue? rest with
    | some v => .ok (v : Int)
    | none => .error .valueError
  | _ =>
    match decValue? l with
    | some v => .ok (v : Int)
    | none => .error .valueError

/-- Python `chr(n)`: the codepoint itself for `0 ≤ n < 0x110000`,
`ValueError` otherwise (no clamping). -/
def pyChr (n : Int) : Except PyExc Nat :=
  if 0 ≤ n ∧ n < 1114112 then .ok n.toNat else .error .valueError

/-- Python `str.lower()`, restricted to the ASCII range exercised by the
direction strings this module compares against. -/
def pyLower (s : String) : String :=
  ⟨s.data.map Char.toLower⟩

/-- The dict comprehension in `_init_spi_nodes`:
`{spi_device: spi_devices[chip_select] for spi_device, chip_select in
chip_select_map.items()}`, evaluated in insertion order; an out-of-range
chip select raises `IndexError` (unguarded in the source). -/
def mapSpiNodes (spi_devices : List String) :
    List (String × Nat) → Except PyExc (List (String × String))
  | [] => .ok []
  | (name, cs) :: rest =>
    match spi_devices[cs]? with
    | none => .error .indexError
    | some node =>
      match mapSpiNodes spi_devices rest with
      | .ok m => .ok ((name, node) :: m)
      | .error e => .error e

/-- `DboardManagerBase._init_spi_nodes(spi_devices, chip_select_map)`:
if fewer SPI device nodes are available than there are distinct chip
selects, log two errors and return the empty mapping; otherwise build the
name-to-node mapping by indexing each chip select into `spi_devices`. -/
def _init_spi_nodes (spi_devices : List String)
    (chip_select_map : List (String × Nat)) :
    List LogLevel × Except PyExc (List (String × String)) :=
  if spi_devices.length < (chip_select_map.map Prod.snd).dedup.length then
    ([.error, .error], .ok [])
  else
    ([], mapSpiNodes spi_devices chip_select_map)

/-- `DboardManagerBase.get_revision()`:
`int(self.device_info.get('rev', '-1'))`, with `ValueError` caught and
turned into the sentinel `-1` (the `rev` key is always present, so the
`'-1'` dict default is never used). -/
def get_revision (info : DeviceInfo) : Int :=
  match pyStrToInt info.rev with
  | .ok n => n
  | .error _ => -1

/-- `DboardManagerBase.get_revision_string()`:
`chr(ord(self.first_revision[1]) + self.get_revision() -
self.first_revision[0])`.  `first_revision` is the pair of the first
revision's id and its letter's codepoint (class default `(1, 'A')`,
here `(1, 65)`). -/
def get_revision_string (first_revision : Int × Nat) (info : DeviceInfo) :
    Except PyExc Nat :=
  pyChr ((first_revision.2 : Int) + get_revision info - first_revision.1)

/-- `DboardManagerBase.get_sensors(direction, chan=0)`:
`assert direction.lower() in ('rx', 'tx')` (an `AssertionError` on any
other direction), then the key list of the matching sensor callback map. -/
def get_sensors (rx_map tx_map : List (String × String))
    (direction : String) : Except PyExc (List String) :=
  if pyLower direction = "rx" ∨ pyLower direction = "tx" then
    if pyLower direction = "rx" then .ok (rx_map.map Prod.fst)
    else .ok (tx_map.map Prod.fst)
  else .error .assertionError

/-- `DboardManagerBase.get_sensor(direction, sensor_name, chan=0)`:
select the RX callback map when `direction.lower() == 'rx'` and the TX map
for every other direction (no validation); if `sensor_name` is absent, log
an error and raise `RuntimeError`; otherwise call the accessor resolved by
`getattr` once with `chan`.  `accessors` stands for the object's method
table; the first component of the result records the accessor invocations
`(method name, chan)` actually performed, the second the log trace, the
third the outcome. -/
def get_sensor {α : Type} (rx_map tx_map : List (String × String))
    (accessors : String → Nat → α) (direction sensor_name : String)
    (chan : Nat) :
    List (String × Nat) × List LogLevel × Except PyExc α :=
  let callback_map := if pyLower direction = "rx" then rx_map else tx_map
  match callback_map.lookup sensor_name with
  | none => ([], [.error], .error .runtimeError)
  | some m => ([(m, chan)], [], .ok (accessors m chan))

/-! ## Theorems -/

/-- C3: for every endpoint index and valid ip, udp_port, mac, `set_route`
performs exactly three 32-bit writes, in order: Dest-IP at
`0x1000 + 4*ep` with the packed IPv4 integer, MACLo at `0x1800 + 4*ep`
with `mac & 0xFFFFFFFF`, then Port+MACHi at `0x1400 + 4*ep` with
`(udp_port << 16) | (mac >> 32)`; in particular `ep=5`,
`ip="192.168.10.2"`, `udp_port=49153`, `mac="aa:bb:cc:dd:ee:ff"` writes
`Dest-IP[0x1014]`, `MACLo[0x1814]=0xCCDDEEFF`,
`Port+MACHi[0x1414]=(49153<<16)|0xAABB`. -/
theorem set_route_three_writes (resolve : String → Option String)
    (dst_ep : Nat) (ip_addr mac : String) (udp_port : Nat) (ipn macn : Nat)
    (hip : ipAddressToInt ip_addr = .ok ipn)
    (hmac : euiToInt (some mac) = .ok macn) :
    (set_route resolve dst_ep ip_addr udp_port (some mac)).2 =
      .ok [(0x1000 + 4 * dst_ep, ipn),
           (0x1800 + 4 * dst_ep, macn &&& 0xFFFFFFFF),
           (0x1400 + 4 * dst_ep, (udp_port <<< 16) ||| (macn >>> 32))] ∧
    (set_route (fun _ => none) 5 "192.168.10.2" 49153
        (some "aa:bb:cc:dd:ee:ff")).2 =
      .ok [(0x1014, 3232238082), (0x1814, 0xCCDDEEFF),
           (0x1414, (49153 <<< 16) ||| 0xAABB)] := by
  refine ⟨?_, by decide⟩
  simp [set_route, hip, hmac, SID_IP_OFFSET, SID_MAC_LO_OFFSET,
    SID_PORT_MAC_HI_OFFSET]

/-- Witness for C3 at the concrete route of the claim. -/
theorem set_route_three_writes_witness :
    (set_route (fun _ => none) 5 "192.168.10.2" 49153
        (some "aa:bb:cc:dd:ee:ff")).2 =
      .ok [(0x1014, 3232238082), (0x1814, 0xCCDDEEFF),
           (0x1414, (49153 <<< 16) ||| 0xAABB)] :=
  (set_route_three_writes (fun _ => none) 5 "192.168.10.2"
    "aa:bb:cc:dd:ee:ff" 49153 3232238082 187723572702975
    (by decide) (by decide)).2

/-- C2 counterexample: with MAC resolution failing, `set_route` does log an
error, but it then raises (`netaddr.EUI(None)` rejects `None` with a
`TypeError`) and performs none of the three register writes — it does not
continue with a zero or placeholder MAC. -/
theorem set_route_unresolved_mac_counterexample :
    set_route (fun _ => none) 0 "192.168.10.2" 49153 none =
      ([.error, .debug], .error .typeError) := by decide

/-- C2 (amended): for every call with `mac` unset whose MAC resolution
fails and whose IP parses, `set_route` logs an error and then raises a
`TypeError` at the MAC conversion, performing no register writes. -/
theorem set_route_unresolved_mac (resolve : String → Option String)
    (dst_ep : Nat) (ip_addr : String) (udp_port : Nat) (ipn : Nat)
    (hres : resolve ip_addr = none)
    (hip : ipAddressToInt ip_addr = .ok ipn) :
    set_route resolve dst_ep ip_addr udp_port none =
      ([.error, .debug], .error .typeError) := by
  simp [set_route, hres, hip, euiToInt]

/-- Witness for C2 (amended) at a concrete failing resolution. -/
theorem set_route_unresolved_mac_witness :
    set_route (fun _ => none) 7 "192.168.10.2" 49153 none =
      ([.error, .debug], .error .typeError) :=
  set_route_unresolved_mac (fun _ => none) 7 "192.168.10.2" 49153
    3232238082 rfl (by decide)

/-- C5: `set_ipv4_addr` writes the packed IPv4 integer to offset `0x0000`
after a successful parse, and on a malformed address it fails with an
address-format error having performed no register write. -/
theorem set_ipv4_addr_spec :
    (∀ ip n, parseIPv4 ip = some n →
      set_ipv4_addr ip = ([.debug], .ok [(OWN_IP_OFFSET, n)])) ∧
    (∀ ip, parseIPv4 ip = none →
      set_ipv4_addr ip = ([.debug], .error .addrFormatError)) := by
  constructor
  · intro ip n h
    simp [set_ipv4_addr, ipAddressToInt, h]
  · intro ip h
    simp [set_ipv4_addr, ipAddressToInt, h]

/-- Witness for C5: one well-formed and one malformed address. -/
theorem set_ipv4_addr_spec_witness :
    set_ipv4_addr "192.168.10.2" =
      ([.debug], .ok [(OWN_IP_OFFSET, 3232238082)]) ∧
    set_ipv4_addr "not.an.ip" = ([.debug], .error .addrFormatError) :=
  ⟨set_ipv4_addr_spec.1 "192.168.10.2" 3232238082 (by decide),
   set_ipv4_addr_spec.2 "not.an.ip" (by decide)⟩

/-- C8: `set_vita_port` defaults the slot to 0 when unset, defaults the
port to 49153 (slot 0) / 49154 (slot 1) when unset, and writes the port
value to `Own-Port[slot]` (offset `0x0004` / `0x0008`); with no arguments
it writes 49153 to offset `0x0004`. -/
theorem set_vita_port_defaults :
    set_vita_port none none = .ok [(0x0004, 49153)] ∧
    (∀ pv, set_vita_port pv none = set_vita_port pv (some 0)) ∧
    set_vita_port none (some 0) = .ok [(0x0004, 49153)] ∧
    set_vita_port none (some 1) = .ok [(0x0008, 49154)] ∧
    (∀ p, p ≠ 0 →
      set_vita_port (some p) (some 0) = .ok [(0x0004, p)] ∧
      set_vita_port (some p) (some 1) = .ok [(0x0008, p)]) := by
  refine ⟨by decide, fun pv => rfl, by decide, by decide,
    fun p hp => ⟨?_, ?_⟩⟩ <;>
  simp [set_vita_port, DEFAULT_VITA_PORT, OWN_PORT_OFFSET, hp]

/-- Witness for C8 at a concrete explicit port. -/
theorem set_vita_port_defaults_witness :
    set_vita_port (some 5000) none = set_vita_port (some 5000) (some 0) ∧
    set_vita_port (some 5000) (some 0) = .ok [(0x0004, 5000)] :=
  ⟨set_vita_port_defaults.2.1 (some 5000),
   (set_vita_port_defaults.2.2.2.2 5000 (by decide)).1⟩

/-- C9: for every slot in {0, 1}, an explicit `port_value` of 0 is
silently replaced by the slot's default port (49153 / 49154) before the
register write — the written value is the default, never 0. -/
theorem set_vita_port_zero_replaced (slot : Nat)
    (h : slot = 0 ∨ slot = 1) :
    set_vita_port (some 0) (some slot) = set_vita_port none (some slot) ∧
    set_vita_port (some 0) (some slot) =
      .ok [(OWN_PORT_OFFSET.getD slot 0, DEFAULT_VITA_PORT.getD slot 0)] ∧
    DEFAULT_VITA_PORT.getD slot 0 ≠ 0 := by
  rcases h with h | h <;> subst h <;> exact ⟨by decide, by decide, by decide⟩

/-- Witness for C9 at slot 0. -/
theorem set_vita_port_zero_replaced_witness :
    set_vita_port (some 0) (some 0) = set_vita_port none (some 0) ∧
    set_vita_port (some 0) (some 0) =
      .ok [(OWN_PORT_OFFSET.getD 0 0, DEFAULT_VITA_PORT.getD 0 0)] ∧
    DEFAULT_VITA_PORT.getD 0 0 ≠ 0 :=
  set_vita_port_zero_replaced 0 (Or.inl rfl)

/-- A successful `mapSpiNodes` result has one entry per chip-select pair. -/
theorem mapSpiNodes_ok_length (devs : List String) :
    ∀ (m : List (String × Nat)) (l : List (String × String)),
      mapSpiNodes devs m = .ok l → l.length = m.length := by
  intro m
  induction m with
  | nil =>
    intro l h
    simp only [mapSpiNodes, Except.ok.injEq] at h
    simp [← h]
  | cons hd tl ih =>
    obtain ⟨name, cs⟩ := hd
    intro l h
    simp only [mapSpiNodes] at h
    cases hnode : devs[cs]? with
    | none => rw [hnode] at h; exact absurd h (by simp)
    | some node =>
      rw [hnode] at h
      cases hrest : mapSpiNodes devs tl with
      | error e => rw [hrest] at h; exact absurd h (by simp)
      | ok m' =>
        rw [hrest] at h
        simp only [Except.ok.injEq] at h
        simp [← h, ih m' hrest]

/-- When every chip select is in range, `mapSpiNodes` succeeds and maps
each name to the node at its chip select. -/
theorem mapSpiNodes_ok_of_lt (devs : List String) :
    ∀ m : List (String × Nat), (∀ p ∈ m, p.2 < devs.length) →
      mapSpiNodes devs m = .ok (m.map fun p => (p.1, devs.getD p.2 "")) := by
  intro m
  induction m with
  | nil => intro _; rfl
  | cons hd tl ih =>
    obtain ⟨name, cs⟩ := hd
    intro h
    have hcs : cs < devs.length := h (name, cs) (List.mem_cons_self _ _)
    have hrest := ih (fun p hp => h p (List.mem_cons_of_mem _ hp))
    simp only [mapSpiNodes, hrest, List.getElem?_eq_getElem hcs,
      List.map_cons]
    simp [List.getD_eq_getElem?_getD, List.getElem?_eq_getElem hcs]

/-- C1 counterexample: the claimed equivalence fails.  With an empty
`chip_select_table` and no available nodes, `build` returns the empty
mapping although `len(available_nodes) < |distinct selects|` is false;
and with enough nodes but an out-of-range chip select, `build` raises
`IndexError` instead of returning a mapping. -/
theorem init_spi_nodes_counterexample :
    ((_init_spi_nodes [] ([] : List (String × Nat))).2 = .ok [] ∧
      ¬ (List.length ([] : List String) <
          ((([] : List (String × Nat)).map Prod.snd).dedup).length)) ∧
    (_init_spi_nodes ["node0"] [("chip", 5)]).2 = .error .indexError := by
  refine ⟨⟨?_, ?_⟩, ?_⟩ <;> decide

/-- C1 (amended): `_init_spi_nodes` returns the empty mapping iff
`len(available_nodes) < |distinct selects|` or the chip-select table is
empty; and when the nodes are sufficient and every chip select is in
range, every name maps to `available_nodes[chip_select_table[name]]`
(an out-of-range select instead raises `IndexError`). -/
theorem init_spi_nodes_build (spi_devices : List String)
    (chip_select_map : List (String × Nat)) :
    ((_init_spi_nodes spi_devices chip_select_map).2 = .ok [] ↔
      spi_devices.length < (chip_select_map.map Prod.snd).dedup.length ∨
        chip_select_map = []) ∧
    (¬ spi_devices.length < (chip_select_map.map Prod.snd).dedup.length →
      (∀ p ∈ chip_select_map, p.2 < spi_devices.length) →
      (_init_spi_nodes spi_devices chip_select_map).2 =
        .ok (chip_select_map.map fun p => (p.1, spi_devices.getD p.2 ""))) := by
  constructor
  · constructor
    · intro h
      by_cases hc :
        spi_devices.length < (chip_select_map.map Prod.snd).dedup.length
      · exact Or.inl hc
      · right
        unfold _init_spi_nodes at h
        rw [if_neg hc] at h
        have hlen := mapSpiNodes_ok_length spi_devices chip_select_map [] h
        exact List.length_eq_zero.mp hlen.symm
    · intro h
      rcases h with hc | hm
      · unfold _init_spi_nodes
        rw [if_pos hc]
      · subst hm
        unfold _init_spi_nodes
        simp [mapSpiNodes]
  · intro hc hin
    unfold _init_spi_nodes
    rw [if_neg hc]
    exact mapSpiNodes_ok_of_lt spi_devices chip_select_map hin

/-- Witness for C1 (amended) at a concrete two-node configuration. -/
theorem init_spi_nodes_build_witness :
    (_init_spi_nodes ["d0", "d1"] [("lmk", 0), ("mykonos", 1)]).2 =
      .ok ([("lmk", 0), ("mykonos", 1)].map
        fun p => (p.1, ["d0", "d1"].getD p.2 "")) :=
  (init_spi_nodes_build ["d0", "d1"] [("lmk", 0), ("mykonos", 1)]).2
    (by decide) (by decide)

/-- C4 counterexample: for an absent sensor name the raised exception is a
`RuntimeError`, which is not a Python `LookupError` (the `LookupError`
subclasses are `KeyError` and `IndexError`). -/
theorem get_sensor_runtime_error_counterexample :
    get_sensor [("temp", "get_rf_temp")] [] (fun _ _ => (0 : Nat)) "rx"
        "nonexistent" 0 =
      ([], [.error], .error .runtimeError) ∧
    PyExc.runtimeError.isLookupError = false := by
  exact ⟨by decide, rfl⟩

/-- C4 (amended): `get_sensor` raises a `RuntimeError` — not a
`LookupError` — that propagates whenever the name is absent from that
direction's callback map; when the name is present it invokes the mapped
accessor exactly once with `chan` and returns its result unmodified. -/
theorem get_sensor_spec {α : Type} (rx_map tx_map : List (String × String))
    (accessors : String → Nat → α) (direction sensor_name : String)
    (chan : Nat) :
    ((if pyLower direction = "rx" then rx_map else tx_map).lookup
        sensor_name = none →
      get_sensor rx_map tx_map accessors direction sensor_name chan =
        ([], [.error], .error .runtimeError)) ∧
    PyExc.runtimeError.isLookupError = false ∧
    (∀ m, (if pyLower direction = "rx" then rx_map else tx_map).lookup
        sensor_name = some m →
      get_sensor rx_map tx_map accessors direction sensor_name chan =
        ([(m, chan)], [], .ok (accessors m chan))) := by
  refine ⟨fun h => ?_, rfl, fun m h => ?_⟩ <;> simp [get_sensor, h]

/-- Witness for C4 (amended): a present sensor invoked once. -/
theorem get_sensor_spec_witness :
    get_sensor [("temp", "get_rf_temp")] [] (fun m c => m.length + c) "rx"
        "temp" 2 =
      ([("get_rf_temp", 2)], [], .ok 13) := by
  have h := (get_sensor_spec [("temp", "get_rf_temp")] []
    (fun m c => m.length + c) "rx" "temp" 2).2.2 "get_rf_temp" (by decide)
  simpa using h

/-- C6: `get_revision` returns `device_info["rev"]` parsed as an integer,
and the sentinel -1 whenever parsing fails; it never raises
(`rev="n/a"` gives -1, `rev="2"` gives 2). -/
theorem get_revision_spec :
    (∀ (info : DeviceInfo) (n : Int), pyStrToInt info.rev = .ok n →
      get_revision info = n) ∧
    (∀ (info : DeviceInfo) (e : PyExc), pyStrToInt info.rev = .error e →
      get_revision info = -1) ∧
    get_revision { rev := "n/a" } = -1 ∧
    get_revision { rev := "2" } = 2 := by
  refine ⟨fun info n h => ?_, fun info e h => ?_, by decide, by decide⟩ <;>
    simp [get_revision, h]

/-- Witness for C6 at a parsing and a non-parsing revision string. -/
theorem get_revision_spec_witness :
    get_revision { rev := "7" } = 7 ∧ get_revision { rev := "xyz" } = -1 :=
  ⟨get_revision_spec.1 { rev := "7" } 7 (by decide),
   get_revision_spec.2.1 { rev := "xyz" } .valueError (by decide)⟩

/-- C7: `get_revision_string` is a pure function of `first_revision` and
the parsed revision, equal to
`chr(ord(first_revision.letter) + revision - first_revision.id)` with no
bounds check (revision 100 yields codepoint 164, beyond the letters);
with `first_revision = (1, 'A')`, revision 3 yields `'C'` (67) and
revision 1 yields `'A'` (65). -/
theorem get_revision_string_spec :
    (∀ (first : Int × Nat) (info info' : DeviceInfo),
      get_revision info = get_revision info' →
      get_revision_string first info = get_revision_string first info') ∧
    (∀ (first : Int × Nat) (info : DeviceInfo),
      get_revision_string first info =
        pyChr ((first.2 : Int) + get_revision info - first.1)) ∧
    get_revision_string (1, 65) { rev := "3" } = .ok 67 ∧
    get_revision_string (1, 65) { rev := "1" } = .ok 65 ∧
    get_revision_string (1, 65) { rev := "100" } = .ok 164 := by
  refine ⟨fun first info info' h => ?_, fun first info => rfl,
    by decide, by decide, by decide⟩
  simp [get_revision_string, h]

/-- Witness for C7: two revision strings with the same parsed revision. -/
theorem get_revision_string_spec_witness :
    get_revision_string (1, 65) { rev := "3" } =
      get_revision_string (1, 65) { rev := " 3" } :=
  get_revision_string_spec.1 (1, 65) { rev := "3" } { rev := " 3" }
    (by decide)

/-- C10: `get_sensor` performs no validation of its direction argument —
any direction whose lowercase form is not `"rx"` selects the TX callback
map and proceeds — whereas `get_sensors` rejects any direction outside
{rx, tx} (case-insensitive) with an assertion failure. -/
theorem get_sensor_no_direction_check {α : Type}
    (rx_map rx_map' tx_map : List (String × String))
    (accessors : String → Nat → α) (direction sensor_name : String)
    (chan : Nat) (h : pyLower direction ≠ "rx") :
    get_sensor rx_map tx_map accessors direction sensor_name chan =
      get_sensor rx_map' tx_map accessors direction sensor_name chan ∧
    get_sensor rx_map tx_map accessors direction sensor_name chan =
      (match tx_map.lookup sensor_name with
       | none => ([], [.error], .error .runtimeError)
       | some m => ([(m, chan)], [], .ok (accessors m chan))) ∧
    (pyLower direction ≠ "tx" →
      get_sensors rx_map tx_map direction = .error .assertionError) := by
  refine ⟨?_, ?_, fun htx => ?_⟩
  · simp [get_sensor, h]
  · simp [get_sensor, h]
  · simp [get_sensors, h, htx]

/-- Witness for C10 at the invalid direction `"bogus"`. -/
theorem get_sensor_no_direction_check_witness :
    get_sensor [("rxs", "rx_acc")] [("txs", "tx_acc")] (fun m c => (m, c))
        "bogus" "txs" 4 =
      get_sensor [] [("txs", "tx_acc")] (fun m c => (m, c)) "bogus"
        "txs" 4 ∧
    get_sensors [("rxs", "rx_acc")] [("txs", "tx_acc")] "bogus" =
      .error .assertionError := by
  have h := get_sensor_no_direction_check [("rxs", "rx_acc")] []
    [("txs", "tx_acc")] (fun m c => (m, c)) "bogus" "txs" 4 (by decide)
  exact ⟨h.1, h.2.2 (by decide)⟩

end UhdMpm
